import Mathlib

/-!
Shallow embedding of `src/XrdCmsRedirLocal.cc` (the XrdCmsRedirLocal
redirect plugin) and proofs about its redirect-locality decision logic.

The plugin's collaborators (`XrdCmsFinderRMT`, `XrdNetAddr`, `XrdOss`,
`XrdOucStream`) are external to the repository; they are modelled as
abstract functions bundled in an environment, exactly at the granularity
the plugin uses them.
-/

namespace RedirLocal

/-- Constant from the XRootD framework header `XrdSfsInterface.hh`
(not part of this repository): the return code signalling a redirect. -/
def SFS_REDIRECT : Int := -256

/-- Constant from the XRootD framework header `XrdSfsInterface.hh`
(not part of this repository): the error return code. -/
def SFS_ERROR : Int := -1

/-- Constant from the XRootD framework header `XrdSfsInterface.hh`
(not part of this repository): the open-flags value for a read-only open. -/
def SFS_O_RDONLY : Int := 0

/-- The part of the `XrdOucErrInfo` object `Resp` that
`XrdCmsRedirLocal::Locate` reads or writes: the error code and message
set via `setErrInfo`, and the client capability word read via `getUCap`.
`errText` models the buffer returned by `getErrText` (always a valid,
possibly empty, string). The C `int` fields are modelled as `Int`. -/
structure RespState where
  errCode : Int
  errText : String
  ucap    : Int
  deriving DecidableEq, Repr

/-- What a call to `nativeCmsFinder->Locate` produced: its return code
`rcode` and the contents it left in `Resp`. -/
structure FinderResult where
  rcode : Int
  resp  : RespState
  deriving DecidableEq, Repr

/-- The external collaborators consulted by `XrdCmsRedirLocal::Locate`:
`isPrivateAddr s` models `XrdNetAddr target(-1); target.Set(s);
target.isPrivate()` applied to a response text `s`; `clientPrivate`
models `EnvInfo->secEnv()->addrInfo->isPrivate()`; `lfn2pfn` models
`theSS->Lfn2Pfn(path, buff, maxPathLength, rc)`, with `none` standing
for a `NULL` return (the plugin ignores the `rc` out-parameter, so it
is not modelled). -/
structure Env where
  isPrivateAddr : String → Bool
  clientPrivate : Bool
  lfn2pfn       : String → Option String

/-- The redirect decision of the engine, as in the spec's data model:
either return the finder's result unchanged (`remoteRedirect`), or
answer locally with the translated path (`localRedirect`). A
`localRedirect` carries the raw `Lfn2Pfn` result; `none` means the
translation returned `NULL`. -/
inductive RedirectDecision where
  | remoteRedirect (result : FinderResult)
  | localRedirect (ppath : Option String)
  deriving DecidableEq, Repr

/-- The gate sequence of `XrdCmsRedirLocal::Locate` (lines 110-147 of
`src/XrdCmsRedirLocal.cc`), run after `nativeCmsFinder->Locate` has
produced `fr`. Each `if` mirrors one source check, in source order:
target privacy, client privacy, protocol capability (`pversion &=
0x0000ffff; pversion < 784`, where the bitwise mask on a two's
complement `int` equals `emod` by `65536`), the flag-range check
`flags > 0x200`, and the read-only policy check
`readOnlyredirect && !(flags == SFS_O_RDONLY)`. If every gate passes,
the path is translated and a local redirect is produced. -/
def decide (env : Env) (readOnlyredirect : Bool) (path : String) (flags : Int)
    (fr : FinderResult) : RedirectDecision :=
  if !(env.isPrivateAddr fr.resp.errText) then .remoteRedirect fr
  else if !env.clientPrivate then .remoteRedirect fr
  else if fr.resp.ucap % 65536 < 784 then .remoteRedirect fr
  else if flags > 0x200 then .remoteRedirect fr
  else if readOnlyredirect && !(flags == SFS_O_RDONLY) then .remoteRedirect fr
  else .localRedirect (env.lfn2pfn path)

/-- Full model of `XrdCmsRedirLocal::Locate`: if `nativeCmsFinder` is
null (`hasFinder = false`) the locally initialised `rcode = 0` is
returned and `Resp` is untouched. Otherwise the finder is called and
the gates of `decide` run on its result; a remote redirect returns the
finder's code and response unchanged, a local redirect performs
`Resp.setErrInfo(-1, ppath)` and returns `SFS_REDIRECT`. A `NULL`
translated path passed to `setErrInfo` is undefined behaviour in the
C++ source; it is modelled as the empty string. -/
def Locate (hasFinder : Bool) (env : Env) (readOnlyredirect : Bool)
    (finderLocate : RespState → Int × RespState)
    (path : String) (flags : Int) (resp : RespState) : Int × RespState :=
  if hasFinder then
    match finderLocate resp with
    | (rcode, r1) =>
      match decide env readOnlyredirect path flags ⟨rcode, r1⟩ with
      | .remoteRedirect fr => (fr.rcode, fr.resp)
      | .localRedirect p => (SFS_REDIRECT, { r1 with errCode := -1, errText := p.getD "" })
  else (0, resp)

/-- Model of `XrdCmsRedirLocal::Space`: forwarded unmodified to
`nativeCmsFinder->Space` when the finder exists, otherwise return 0
with `Resp` untouched. -/
def Space (hasFinder : Bool) (finderSpace : RespState → Int × RespState)
    (resp : RespState) : Int × RespState :=
  if hasFinder then finderSpace resp else (0, resp)

/-- Lowercasing as performed by `XrdOucStream::GetFirstWord(true)` and
`GetWord(true)` on the token they return (the source comments call this
"get word in lower case"). -/
def strToLower (s : String) : String := ⟨s.data.map Char.toLower⟩

/-- Substring containment, modelling `std::string::find(pat) != npos`. -/
def hasSub (pat : List Char) : List Char → Bool
  | [] => pat.isEmpty
  | c :: t => pat.isPrefixOf (c :: t) || hasSub pat t

/-- The literal the source compares each lowercased first word against:
`strcmp(word, "XrdCmsRedirLocal.readonlyredirect")` at line 74 of
`src/XrdCmsRedirLocal.cc`. Note the mixed case. -/
def configKey : String := "XrdCmsRedirLocal.readonlyredirect"

/-- One record (line) of the configuration stream as the loop in
`loadConfig` consumes it: the first word of the line and, when present,
the word following it. Words carry the casing written in the file; the
stream calls lowercase them. -/
structure ConfigRecord where
  first : String
  next  : Option String
  deriving DecidableEq, Repr

/-- One iteration of the `while ((word = Config.GetFirstWord(true)))`
loop: compare the lowercased first word with `configKey`; on a match,
lowercase the following word and set the flag to whether it contains
`"true"`. `Config.GetWord` returning `NULL` on a match would make
`std::string(NULL)` undefined behaviour in the source; that case keeps
the flag (it is unreachable: the guard never holds, see
`loadConfig_never_sets_flag`). -/
def loadConfigStep (flag : Bool) (rec : ConfigRecord) : Bool :=
  if strToLower rec.first = configKey then
    match rec.next with
    | some w => hasSub "true".data (strToLower w).data
    | none => flag
  else flag

/-- Model of `XrdCmsRedirLocal::loadConfig`: `none` models a file that
could not be opened (`open(...) < 0`), in which case the function
returns at once and the flag keeps the value `false` set by the
constructor. Otherwise the loop folds `loadConfigStep` over the
records of the stream, starting from the constructor value `false`. -/
def loadConfig (file : Option (List ConfigRecord)) : Bool :=
  match file with
  | none => false
  | some recs => recs.foldl loadConfigStep false

/-- The member state of the `XrdCmsRedirLocal` object that `Locate`
can see: the `nativeCmsFinder` pointer (modelled by whether it is
non-null) and the `readOnlyredirect` flag. -/
structure PluginState where
  hasFinder : Bool
  readOnlyredirect : Bool
  deriving DecidableEq, Repr

/-- `XrdCmsRedirLocal::Locate` as a transformer of the member state:
the body of `Locate` contains no assignment to any member, so the
state component of the result is the input state. -/
def LocateS (st : PluginState) (env : Env)
    (finderLocate : RespState → Int × RespState)
    (path : String) (flags : Int) (resp : RespState) :
    (Int × RespState) × PluginState :=
  (Locate st.hasFinder env st.readOnlyredirect finderLocate path flags resp, st)

/-- Names for the five pure gate predicates of
`XrdCmsRedirLocal::Locate`, used to state that their evaluation order
does not affect the decision. -/
inductive Gate where
  | target | client | capability | opflags | policy
  deriving DecidableEq, Repr

/-- Whether a given gate fails (forces a remote redirect) on the given
inputs; each case is the corresponding source condition of `decide`. -/
def gateFails (env : Env) (readOnlyredirect : Bool) (flags : Int)
    (fr : FinderResult) : Gate → Bool
  | .target => !(env.isPrivateAddr fr.resp.errText)
  | .client => !env.clientPrivate
  | .capability => if fr.resp.ucap % 65536 < 784 then true else false
  | .opflags => if flags > 0x200 then true else false
  | .policy => readOnlyredirect && !(flags == SFS_O_RDONLY)

/-- The order in which the source evaluates the gates. -/
def implOrder : List Gate := [.target, .client, .capability, .opflags, .policy]

/-- Evaluate the gates in a given order, short-circuiting to a remote
redirect at the first failing gate, and producing the local redirect
when every gate passes. -/
def decideGates (env : Env) (readOnlyredirect : Bool) (path : String)
    (flags : Int) (fr : FinderResult) : List Gate → RedirectDecision
  | [] => .localRedirect (env.lfn2pfn path)
  | g :: rest =>
    if gateFails env readOnlyredirect flags fr g then .remoteRedirect fr
    else decideGates env readOnlyredirect path flags fr rest

/-- Sample environment in which every address classifies as private and
path translation prepends `"/local"` (the localroot of the spec's
Example 1). -/
def envAllPrivate : Env := ⟨fun _ => true, true, fun s => some ("/local" ++ s)⟩

/-- Sample environment in which no address classifies as private. -/
def envPublicTarget : Env := ⟨fun _ => false, true, fun s => some s⟩

/-- Sample environment in which every address classifies as private but
path translation fails (`Lfn2Pfn` returns `NULL`). -/
def envTranslateFail : Env := ⟨fun _ => true, true, fun _ => none⟩

/-- Sample finder result: a successful locate of a private target with
capability word 784. -/
def frSample : FinderResult := ⟨SFS_REDIRECT, ⟨0, "10.0.0.9", 784⟩⟩

/-- Sample finder result: a successful locate with capability word 700,
below the required minimum. -/
def frOldCap : FinderResult := ⟨SFS_REDIRECT, ⟨0, "10.0.0.9", 700⟩⟩

/-- Sample finder result: an errored locate whose response text is an
error message, not an address. -/
def frErrored : FinderResult := ⟨SFS_ERROR, ⟨0, "no servers are available", 784⟩⟩

/-- Lowercase latin letters have code points in `[97, 122]`, so
`Char.toLower` never produces the capital letter `X`. -/
lemma ofNat_shift_ne (n : Nat) (h1 : 65 ≤ n) (h2 : n ≤ 90) :
    Char.ofNat (n + 32) ≠ 'X' := by
  interval_cases n <;> decide

/-- No character lowercases to the capital letter `X`. -/
lemma toLower_ne_X (c : Char) : Char.toLower c ≠ 'X' := by
  show (if c.toNat ≥ 65 ∧ c.toNat ≤ 90 then Char.ofNat (c.toNat + 32) else c) ≠ 'X'
  split
  · next h => exact ofNat_shift_ne _ h.1 h.2
  · next h =>
    intro hc
    subst hc
    exact h (by decide)

/-- A lowercased word can never equal the mixed-case literal
`configKey`, whose first character is a capital `X`. -/
lemma strToLower_ne_configKey (w : String) : strToLower w ≠ configKey := by
  intro h
  have hd : w.data.map Char.toLower = configKey.data := congrArg String.data h
  have hh := congrArg List.head? hd
  rw [show configKey.data.head? = some 'X' from rfl] at hh
  cases hw : w.data with
  | nil => rw [hw] at hh; simp at hh
  | cons c t =>
    rw [hw] at hh
    simp at hh
    exact toLower_ne_X c hh

/-- Every iteration of the `loadConfig` loop leaves the flag unchanged,
because the `strcmp` guard never holds. -/
lemma loadConfigStep_id (flag : Bool) (rec : ConfigRecord) :
    loadConfigStep flag rec = flag := by
  unfold loadConfigStep
  rw [if_neg (strToLower_ne_configKey rec.first)]

/-- The configuration loader returns `false` on every input stream. -/
lemma loadConfig_eq_false (file : Option (List ConfigRecord)) :
    loadConfig file = false := by
  cases file with
  | none => rfl
  | some recs =>
    show recs.foldl loadConfigStep false = false
    induction recs with
    | nil => rfl
    | cons r t ih => simp [List.foldl, loadConfigStep_id, ih]

/-- Running the gates in any order produces a remote redirect exactly
when some gate in the list fails, and the local redirect otherwise. -/
lemma decideGates_eq_any (env : Env) (ro : Bool) (path : String) (flags : Int)
    (fr : FinderResult) (order : List Gate) :
    decideGates env ro path flags fr order =
      if order.any (gateFails env ro flags fr) then .remoteRedirect fr
      else .localRedirect (env.lfn2pfn path) := by
  induction order with
  | nil => rfl
  | cons g rest ih =>
    unfold decideGates
    rw [ih]
    cases hg : gateFails env ro flags fr g <;> simp [hg]

/-- The source's decision chain equals the any-gate-fails test over the
implemented gate order. -/
lemma decide_eq_any (env : Env) (ro : Bool) (path : String) (flags : Int)
    (fr : FinderResult) :
    decide env ro path flags fr =
      if implOrder.any (gateFails env ro flags fr) then .remoteRedirect fr
      else .localRedirect (env.lfn2pfn path) := by
  unfold decide implOrder
  by_cases h1 : env.isPrivateAddr fr.resp.errText <;>
  by_cases h2 : env.clientPrivate <;>
  by_cases h3 : fr.resp.ucap % 65536 < 784 <;>
  by_cases h4 : flags > 0x200 <;>
  by_cases h5 : (ro && !(flags == SFS_O_RDONLY)) = true <;>
  simp_all [gateFails]
  all_goals split_ifs <;> first | rfl | omega | tauto

/-- Permuting a list of gates does not change whether some gate in it
fails. -/
lemma any_congr_of_perm {l1 l2 : List Gate} (h : l1.Perm l2)
    (p : Gate → Bool) : l1.any p = l2.any p := by
  cases h1 : l1.any p <;> cases h2 : l2.any p <;> try rfl
  · rw [List.any_eq_false] at h1
    rw [List.any_eq_true] at h2
    obtain ⟨g, hg, hp⟩ := h2
    exact absurd hp (by simpa using h1 g (h.mem_iff.mpr hg))
  · rw [List.any_eq_false] at h2
    rw [List.any_eq_true] at h1
    obtain ⟨g, hg, hp⟩ := h1
    exact absurd hp (by simpa using h2 g (h.mem_iff.mp hg))

/-- If any one of the five gates fails, the decision is the remote
redirect carrying the finder result unchanged. -/
lemma decide_remote_of_gate {env : Env} {ro : Bool} {path : String} {flags : Int}
    {fr : FinderResult} (g : Gate) (hg : gateFails env ro flags fr g = true) :
    decide env ro path flags fr = .remoteRedirect fr := by
  rw [decide_eq_any]
  rw [if_pos]
  rw [List.any_eq_true]
  exact ⟨g, by cases g <;> simp [implOrder], hg⟩

/-- Sanity checks against the worked examples of the spec (section 8):
all-private request with capability 784 and read-only flags is answered
locally with the translated path. -/
example :
    decide envAllPrivate false "/data/f" 0 frSample =
      .localRedirect (some "/local/data/f") := by decide

example :
    decide envPublicTarget false "/data/f" 0 frSample = .remoteRedirect frSample := by
  decide

example :
    decide envAllPrivate false "/data/f" 0 frOldCap = .remoteRedirect frOldCap := by
  decide

example :
    decide envAllPrivate true "/data/f" 0x102 frSample = .remoteRedirect frSample := by
  decide

example :
    decide envAllPrivate true "/data/f" 0 frSample =
      .localRedirect (some "/local/data/f") := by decide

/-- Claim C1, counterexample: it is not the case that an errored finder
result is always returned unchanged. The engine never inspects the
status: with an errored result (`rcode = SFS_ERROR`) whose response
text classifies as a private address, a private client, capability 784
and read-only flags, every gate passes and a local redirect is produced
from the errored result. -/
theorem status_gate_missing_cex :
    ¬ (∀ (env : Env) (ro : Bool) (path : String) (flags : Int) (fr : FinderResult),
        fr.rcode = SFS_ERROR → decide env ro path flags fr = .remoteRedirect fr) :=
  fun h =>
    absurd (h envAllPrivate false "/data/f" 0 ⟨SFS_ERROR, ⟨0, "10.0.0.9", 784⟩⟩ rfl)
      (by decide)

/-- Claim C1, amended: for every request whose finder result is errored
(`rcode = SFS_ERROR`), if the result's response text does not classify
as a private target address (error texts are messages, not private
addresses), the decision is a remote redirect carrying the errored
result unchanged. The engine itself never inspects the status; the
propagation happens through the target-locality gate. -/
theorem errored_result_propagated_when_target_public (env : Env) (ro : Bool)
    (path : String) (flags : Int) (fr : FinderResult)
    (_hs : fr.rcode = SFS_ERROR) (ht : env.isPrivateAddr fr.resp.errText = false) :
    decide env ro path flags fr = .remoteRedirect fr :=
  decide_remote_of_gate .target (by simp [gateFails, ht])

/-- Claim C1, witness: the amended theorem applied to a concrete errored
result whose message does not classify as private. -/
theorem errored_result_propagated_witness :
    (frErrored.rcode = SFS_ERROR ∧
      envPublicTarget.isPrivateAddr frErrored.resp.errText = false) ∧
    decide envPublicTarget false "/data/f" 0 frErrored = .remoteRedirect frErrored :=
  ⟨⟨rfl, rfl⟩,
    errored_result_propagated_when_target_public envPublicTarget false "/data/f" 0
      frErrored rfl rfl⟩

/-- Claim C2: on a request that passes every gate but whose path
translation fails (`Lfn2Pfn` returns `NULL`), the code still produces a
local redirect carrying the failed translation result — it does not
fail open to a remote redirect. The `rc` out-parameter of `Lfn2Pfn` is
never read and the returned pointer is passed to `setErrInfo`
unconditionally (lines 139-147 of the source). -/
theorem translation_failure_still_local_redirect :
    decide envTranslateFail false "/data/f" 0 frSample = .localRedirect none := by
  decide

/-- Claim C3: the configuration loader can never set the flag. The loop
lowercases each configuration word but compares it with `strcmp`
against the mixed-case literal `"XrdCmsRedirLocal.readonlyredirect"`,
which contains a capital `X` no lowercased word can match; so for every
configuration stream — including one containing exactly the directive
with value `"true"` — the result is `false`. -/
theorem loadConfig_never_sets_flag :
    loadConfig (some [⟨"xrdcmsredirlocal.readonlyredirect", some "true"⟩]) = false ∧
    ∀ file : Option (List ConfigRecord), loadConfig file = false :=
  ⟨loadConfig_eq_false _, loadConfig_eq_false⟩

/-- Claim C4: whenever the located target address is not private or the
client address is not private, the decision is a remote redirect
verbatim-equal to the finder's result. -/
theorem public_locality_remote_redirect (env : Env) (ro : Bool) (path : String)
    (flags : Int) (fr : FinderResult)
    (h : env.isPrivateAddr fr.resp.errText = false ∨ env.clientPrivate = false) :
    decide env ro path flags fr = .remoteRedirect fr := by
  rcases h with h | h
  · exact decide_remote_of_gate .target (by simp [gateFails, h])
  · exact decide_remote_of_gate .client (by simp [gateFails, h])

/-- Claim C4, witness: the locality theorem applied to a concrete
request with a public target. -/
theorem public_locality_witness :
    (envPublicTarget.isPrivateAddr frSample.resp.errText = false ∨
      envPublicTarget.clientPrivate = false) ∧
    decide envPublicTarget false "/data/f" 0 frSample = .remoteRedirect frSample :=
  ⟨Or.inl rfl,
    public_locality_remote_redirect envPublicTarget false "/data/f" 0 frSample
      (Or.inl rfl)⟩

/-- Claim C5: whenever the low 16 bits of the capability word are below
784, the decision is a remote redirect carrying the finder result
unchanged, regardless of locality, flags and policy. -/
theorem capability_below_min_remote_redirect (env : Env) (ro : Bool) (path : String)
    (flags : Int) (fr : FinderResult) (h : fr.resp.ucap % 65536 < 784) :
    decide env ro path flags fr = .remoteRedirect fr :=
  decide_remote_of_gate .capability (by simp [gateFails, h])

/-- Claim C5, witness: the capability theorem applied to a concrete
all-private request with capability word 700. -/
theorem capability_below_min_witness :
    frOldCap.resp.ucap % 65536 < 784 ∧
    decide envAllPrivate false "/data/f" 0 frOldCap = .remoteRedirect frOldCap :=
  ⟨by decide,
    capability_below_min_remote_redirect envAllPrivate false "/data/f" 0 frOldCap
      (by decide)⟩

/-- Claim C6: whenever the operation flags exceed `0x200`, the decision
is a remote redirect carrying the finder result unchanged, regardless
of every other condition. -/
theorem flags_above_max_remote_redirect (env : Env) (ro : Bool) (path : String)
    (flags : Int) (fr : FinderResult) (h : flags > 0x200) :
    decide env ro path flags fr = .remoteRedirect fr :=
  decide_remote_of_gate .opflags (by simp [gateFails, h])

/-- Claim C6, witness: the flag-range theorem applied to a concrete
all-private request with flags `0x400`. -/
theorem flags_above_max_witness :
    (0x400 : Int) > 0x200 ∧
    decide envAllPrivate false "/data/f" 0x400 frSample = .remoteRedirect frSample :=
  ⟨by decide,
    flags_above_max_remote_redirect envAllPrivate false "/data/f" 0x400 frSample
      (by decide)⟩

/-- Claim C7: with the read-only policy enabled, any flags other than
the read-only value force a remote redirect carrying the finder result
unchanged, while with flags exactly read-only the policy gate alone
changes nothing — the decision equals the one taken with the policy
disabled. -/
theorem readonly_policy_gate (env : Env) (path : String) (flags : Int)
    (fr : FinderResult) :
    (flags ≠ SFS_O_RDONLY → decide env true path flags fr = .remoteRedirect fr) ∧
    (flags = SFS_O_RDONLY →
      decide env true path flags fr = decide env false path flags fr) := by
  constructor
  · intro h
    exact decide_remote_of_gate .policy (by simpa [gateFails] using h)
  · intro h
    subst h
    simp [decide]

/-- Claim C7, witness: the policy theorem applied at flags 1 (forces a
remote redirect) and at flags 0 (policy gate is neutral). -/
theorem readonly_policy_gate_witness :
    decide envAllPrivate true "/data/f" 1 frSample = .remoteRedirect frSample ∧
    decide envAllPrivate true "/data/f" 0 frSample =
      decide envAllPrivate false "/data/f" 0 frSample :=
  ⟨(readonly_policy_gate envAllPrivate "/data/f" 1 frSample).1 (by decide),
   (readonly_policy_gate envAllPrivate "/data/f" 0 frSample).2 rfl⟩

/-- Claim C8: the decision is independent of the order in which the
five pure gate predicates are evaluated — any permutation of the
implemented gate order yields exactly the decision the source
computes, payload included. -/
theorem gate_order_independent (order : List Gate) (hperm : order.Perm implOrder)
    (env : Env) (ro : Bool) (path : String) (flags : Int) (fr : FinderResult) :
    decideGates env ro path flags fr order = decide env ro path flags fr := by
  rw [decideGates_eq_any, decide_eq_any, any_congr_of_perm hperm]

/-- Claim C8, witness: the order-independence theorem applied to the
reversed gate order on a concrete all-private request. -/
theorem gate_order_independent_witness :
    ([Gate.policy, Gate.opflags, Gate.capability, Gate.client, Gate.target].Perm
      implOrder) ∧
    decideGates envAllPrivate false "/data/f" 0 frSample
        [Gate.policy, Gate.opflags, Gate.capability, Gate.client, Gate.target] =
      decide envAllPrivate false "/data/f" 0 frSample :=
  ⟨by decide,
    gate_order_independent _ (by decide) envAllPrivate false "/data/f" 0 frSample⟩

/-- Claim C9: the decision procedure is deterministic and stateless. As
a transformer of the plugin's member state, `Locate` leaves the state
unchanged, and a second call with identical request, environment,
finder behaviour and response state produces an identical result. -/
theorem decide_deterministic_stateless (st : PluginState) (env : Env)
    (fL : RespState → Int × RespState) (path : String) (flags : Int)
    (resp : RespState) :
    (LocateS st env fL path flags resp).2 = st ∧
    LocateS (LocateS st env fL path flags resp).2 env fL path flags resp =
      LocateS st env fL path flags resp := ⟨rfl, rfl⟩

/-- Claim C10: with a null `nativeCmsFinder`, `Locate` returns 0 with
`Resp` untouched — for every environment, policy flag and finder
behaviour, so no gate or translation can have influenced the result —
and `Space` behaves the same way. -/
theorem no_finder_frame (env : Env) (ro : Bool)
    (fL fS : RespState → Int × RespState) (path : String) (flags : Int)
    (resp : RespState) :
    Locate false env ro fL path flags resp = (0, resp) ∧
    Space false fS resp = (0, resp) := ⟨rfl, rfl⟩

end RedirLocal
